import Mathlib

/-!
# TrueScan — verification of the aggregation / synthesis pipeline

Shallow embedding of the TrueScan news-broadcast pipeline
(`utils.py`, `news_scraper.py`, `reddit_scrapper.py`, `backend.py`).
External collaborators (HTTP fetch, the BeautifulSoup markup stripper,
the language-model calls, the MCP agent, the speech-synthesis SDKs)
are modelled as oracle parameters; the repository's own control flow
and string manipulation are translated function by function.
Python exceptions become `Except` values; a Python function that can
never let an exception escape becomes a Lean function returning a plain
(non-`Except`) value.
-/

set_option autoImplicit false

namespace TrueScan

/-! ## Python string primitives

`str.split('\n')`, `str.strip()`, `str.lower()` and the `in` substring
test, translated at the character-list level so that every definition
reduces in the kernel. -/

/-- Python `s.split('\n')` on the character list: split on every newline,
keeping empty pieces (Python's `split` with an explicit separator). -/
def splitNl : List Char → List (List Char)
  | [] => [[]]
  | c :: rest =>
    let r := splitNl rest
    if c = '\n' then [] :: r
    else
      match r with
      | [] => [[c]]
      | h :: t => (c :: h) :: t

/-- Remove trailing whitespace characters. -/
def trimBack : List Char → List Char
  | [] => []
  | c :: cs =>
    match trimBack cs with
    | [] => if c.isWhitespace then [] else [c]
    | r => c :: r

/-- Python `str.strip()` (no argument): drop leading and trailing whitespace. -/
def stripChars (cs : List Char) : List Char :=
  trimBack (cs.dropWhile Char.isWhitespace)

/-- Python `line.strip()` on a `String`. -/
def pyStrip (s : String) : String :=
  String.mk (stripChars s.data)

/-- Python `cleaned_text.split('\n')` on a `String`. -/
def pySplitLines (s : String) : List String :=
  (splitNl s.data).map String.mk

/-- The list comprehension
`[line.strip() for line in cleaned_text.split('\n') if line.strip()]`:
stripped lines, with the ones that strip to empty removed. -/
def pyLines (s : String) : List String :=
  ((pySplitLines s).map pyStrip).filter (fun l => l != "")

/-- Python `str.lower()` (character-wise `Char.toLower`). -/
def pyLower (s : String) : String :=
  String.mk (s.data.map Char.toLower)

/-- `pat` occurs at the head of `s` (character lists). -/
def leadsWith : List Char → List Char → Bool
  | [], _ => true
  | _ :: _, [] => false
  | p :: ps, c :: cs => p == c && leadsWith ps cs

/-- Python `pat in s` (substring occurrence) on character lists. -/
def hasSubList (pat : List Char) : List Char → Bool
  | [] => leadsWith pat []
  | c :: cs => leadsWith pat (c :: cs) || hasSubList pat cs

/-- Python `pat in s` on `String`s. -/
def hasSubstr (s pat : String) : Bool :=
  hasSubList pat.data s.data

/-! ## Content Extractor — `utils.extract_headlines`

```python
def extract_headlines(cleaned_text: str) -> str:
    lines = [line.strip() for line in cleaned_text.split('\n') if line.strip()]
    headlines = []
    current_block = []
    for line in lines:
        if current_block:
            headlines.append(current_block[0])
            current_block = []
        else:
            current_block.append(line)
    if current_block:
        headlines.append(current_block[0])
    return "\n".join(headlines)
```

Note that in the `if current_block:` branch the loop variable `line` is
never used: the line that triggers the flush is discarded. -/

/-- The `for line in lines` loop of `extract_headlines`, with the
trailing `if current_block: headlines.append(current_block[0])` flush.
First argument: remaining lines; second: `current_block`. -/
def blockLoop : List String → List String → List String
  | [], cb =>
    match cb with
    | [] => []
    | b :: _ => [b]
  | l :: rest, [] => blockLoop rest [l]
  | _ :: rest, b :: _ => b :: blockLoop rest []

/-- Python `"\n".join(parts)`. -/
def joinNl : List String → String
  | [] => ""
  | [a] => a
  | a :: rest => a ++ "\n" ++ joinNl rest

/-- `utils.extract_headlines`. -/
def extract_headlines (cleaned_text : String) : String :=
  joinNl (blockLoop (pyLines cleaned_text) [])

/-- The headline list `extract_headlines` joins (its output before
`"\n".join`). -/
def extractCore (cleaned_text : String) : List String :=
  blockLoop (pyLines cleaned_text) []

/-- The odd-positioned elements (first, third, fifth, ...) of a list. -/
def oddPositions : List String → List String
  | [] => []
  | [a] => [a]
  | a :: _ :: rest => a :: oddPositions rest

/-- A line as produced by the comprehension in `extract_headlines`:
non-empty, newline-free, and fixed under a second `strip()`. -/
def CleanLine (x : String) : Prop :=
  x ≠ "" ∧ '\n' ∉ x.data ∧ stripChars x.data = x.data


/-! ## Python dictionaries keyed by topic strings

`results = {}` followed by `results[topic] = value` in a loop.  A dict
is a partial map; insertion overwrites. -/

/-- A Python `dict` from topic strings to result strings. -/
abbrev StrDict := String → Option String

/-- The empty dict `{}`. -/
def emptyDict : StrDict := fun _ => none

/-- `d[k] = v`. -/
def dictInsert (d : StrDict) (k v : String) : StrDict :=
  fun x => if x = k then some v else d x

instance exceptDecEq {ε α : Type} [DecidableEq ε] [DecidableEq α] :
    DecidableEq (Except ε α) := fun a b =>
  match a, b with
  | .ok x, .ok y =>
    if h : x = y then isTrue (by rw [h]) else isFalse (by intro hc; cases hc; exact h rfl)
  | .error x, .error y =>
    if h : x = y then isTrue (by rw [h]) else isFalse (by intro hc; cases hc; exact h rfl)
  | .ok _, .error _ => isFalse (by intro hc; cases hc)
  | .error _, .ok _ => isFalse (by intro hc; cases hc)

/-! ## News Source Adapter — `utils.py` and `news_scraper.py`

External collaborators (`urllib.parse.quote_plus`, the BrightData HTTP
POST, BeautifulSoup's `get_text`, the Gemini LLM call) are oracle
fields; each request either returns a value or raises, modelled as
`Except String` carrying the exception text. -/

structure NewsOracle where
  /-- `urllib.parse.quote_plus` (external library). -/
  quotePlus : String → String
  /-- `requests.post("https://api.brightdata.com/request", ...)` followed by
  `raise_for_status`: the response text, or a `RequestException` message. -/
  post : String → Except String String
  /-- `BeautifulSoup(html).get_text(separator='\n').strip()` —
  `clean_html_to_text`, deterministic, no failure path. -/
  cleanHtml : String → String
  /-- `ChatGoogleGenerativeAI(...).invoke(prompt).content`: the LLM reply,
  or the exception text on upstream failure. -/
  llm : String → Except String String

/-- `utils.generate_valid_news_url`. -/
def generate_valid_news_url (quotePlus : String → String) (keyword : String) : String :=
  "https://news.google.com/search?q=" ++ quotePlus keyword ++ "&tbs=sbd:1"

/-- `utils.scrape_with_brightdata`: wraps a `RequestException` into
`HTTPException(500, "BrightData scraping error: ...")`. -/
def scrape_with_brightdata (post : String → Except String String) (url : String) :
    Except String String :=
  match post url with
  | .ok response_text => .ok response_text
  | .error e => .error ("BrightData scraping error: " ++ e)

/-- The fixed system prompt of `summarize_with_mistral_news_script`. -/
def newsSystemPrompt : String :=
  "\nYou are a professional news editor creating a broadcast-ready script.\n\nGuidelines:\n- Summarize the most important headlines\n- Write in a conversational, engaging tone\n- Use short, clear sentences suitable for audio\n- No markdown, emojis, or special formatting\n- Organize by topic naturally\n- End with a brief conclusion\n"

/-- `utils.summarize_with_mistral_news_script`: one LLM invocation on
`system_prompt + "\n\nHeadlines:\n" + headlines`, the reply stripped;
any exception becomes `HTTPException(500, "Google API error: ...")`. -/
def summarize_with_mistral_news_script (llm : String → Except String String)
    (headlines : String) : Except String String :=
  match llm (newsSystemPrompt ++ "\n\nHeadlines:\n" ++ headlines) with
  | .ok content => .ok (pyStrip content)
  | .error e => .error ("Google API error: " ++ e)

/-- The per-topic error text of `NewsScraper.scrape_news`. -/
def newsTopicErrorMsg (topic e : String) : String :=
  "Error fetching news for \x27" ++ topic ++ "\x27: " ++ e

/-- The body of the per-topic `try` block of `NewsScraper.scrape_news`
(`news_scraper.py` lines 18–33): URL build, fetch, markup strip,
headline extraction, summarization — the first raising step aborts the
block with its exception. -/
def newsPipeline (O : NewsOracle) (topic : String) : Except String String :=
  match scrape_with_brightdata O.post (generate_valid_news_url O.quotePlus topic) with
  | .error e => .error e
  | .ok search_html =>
    summarize_with_mistral_news_script O.llm
      (extract_headlines (O.cleanHtml search_html))

/-- The per-topic `try`/`except` of `NewsScraper.scrape_news`: the
`except Exception` clause turns any failure of the block into the
topic-scoped error string. -/
def scrape_news_topic (O : NewsOracle) (topic : String) : String :=
  match newsPipeline O topic with
  | .ok summary => summary
  | .error e => newsTopicErrorMsg topic e

/-- Whether some step (fetch or summarization) of the per-topic pipeline
raised for this topic. -/
def newsStepFailed (O : NewsOracle) (topic : String) : Bool :=
  match newsPipeline O topic with
  | .error _ => true
  | .ok _ => false

/-- The value returned by `scrape_news`: `{"news_analysis": results}`. -/
structure NewsAnalysisResult where
  news_analysis : StrDict

/-- `NewsScraper.scrape_news`: the sequential topic loop.  The rate
limiter and the 1-second sleep only pace the loop; they do not alter the
data flow.  The function returns a plain value — with every fallible
step modelled in `Except`, totality of this definition is the statement
that no exception escapes to the caller. -/
def scrape_news (O : NewsOracle) (topics : List String) : NewsAnalysisResult :=
  ⟨topics.foldl (fun results topic => dictInsert results topic (scrape_news_topic O topic))
    emptyDict⟩

/-! ## Social Source Adapter — `reddit_scrapper.py`

The MCP stdio channel, session handshake, tool loading and agent
construction are batch-wide Session-Init; the per-topic
`agent.ainvoke` is a second oracle.  The agent's reply is either a
final message with string content, a result not of the expected
`{"messages": [...]}` shape, or an exception carrying its message. -/

/-- Outcome of `agent.ainvoke` when it does not raise: `content` is the
extracted `last_message.content` (or its `str(...)` rendering);
`unexpected` is a result that is not a dict with a non-empty
`"messages"` list, hitting the fallback return. -/
inductive AgentOutcome where
  | content (c : String)
  | unexpected
deriving DecidableEq

/-- `class MCPOverloadedError(Exception)` — custom exception for MCP
service overload (`reddit_scrapper.py` lines 43–45). -/
structure MCPOverloadedError where
  msg : String
deriving DecidableEq

structure RedditOracle where
  /-- `stdio_client` + `ClientSession` + `session.initialize()` +
  `load_mcp_tools` + `create_react_agent`: Session-Init for the batch,
  raising on handshake or process-launch failure. -/
  sessionInit : Except String Unit
  /-- `agent.ainvoke({"messages": [...]})` on the per-topic prompt. -/
  agentInvoke : String → Except String AgentOutcome

/-- The per-topic instruction template of `process_topic`. -/
def redditPrompt (topic : String) : String :=
  "\nYou are a Reddit community analyst. Your task is to find and summarize Reddit discussions about \x27" ++ topic ++ "\x27.\n\nIMPORTANT INSTRUCTIONS:\n1. Use the available tools to search Reddit for posts about \x27" ++ topic ++ "\x27 from the last 2 weeks\n2. Look for posts with good engagement (upvotes, comments)\n3. Read the actual post content and top comments\n4. If you can\x27t find recent posts, try searching more broadly or check related subreddits\n\nProvide a natural, conversational summary that includes:\n- What people are saying about " ++ topic ++ " on Reddit\n- Main talking points and opinions\n- Interesting insights or perspectives shared by users (paraphrase, no usernames)\n- Overall community sentiment and tone\n- Any emerging trends or debates\n\nWrite as if you\x27re telling someone what you learned from reading Reddit. Be specific and reference actual discussion points you found. If you truly cannot find any discussions, explain what you searched for and why there might not be content available.\n\nCRITICAL: Do NOT say \"I\x27m unable to access\" or similar phrases unless you\x27ve actually attempted to use the tools and failed. Make a genuine attempt to search and retrieve data first.\n"

/-- The short-content placeholder of `process_topic`. -/
def limitedPlaceholder (topic : String) : String :=
  "Limited Reddit discussion found for " ++ topic ++
    ". The community may not have been actively discussing this topic recently."

/-- The unexpected-result-format fallback of `process_topic`. -/
def unexpectedFormatMsg (topic : String) : String :=
  "Reddit discussions for " ++ topic ++ " could not be retrieved in the expected format."

/-- The rate-limit per-topic message of `process_topic`. -/
def rateLimitMsg (topic : String) : String :=
  "Rate limit reached while searching for " ++ topic ++ ". Please try again in a few minutes."

/-- The generic per-topic failure message of `process_topic`. -/
def techIssueMsg (topic : String) : String :=
  "Technical issue while retrieving Reddit discussions for " ++ topic ++
    ". This may be a temporary problem with the Reddit data service."

/-- The batch-wide Session-Init-failure placeholder of
`scrape_reddit_topics`. -/
def unavailableMsg (topic : String) : String :=
  "Reddit data temporarily unavailable for " ++ topic

/-- The per-topic fallback of the inner `except Exception` clause of
`scrape_reddit_topics` (lines 94–96). -/
def unableFetchMsg (topic : String) : String :=
  "Unable to fetch Reddit discussions for " ++ topic ++ " due to technical issues."

/-- `"Overloaded" in error_msg or "429" in error_msg`. -/
def overloadSignal (error_msg : String) : Bool :=
  hasSubstr error_msg "Overloaded" || hasSubstr error_msg "429"

/-- `process_topic` (`reddit_scrapper.py` lines 115–186): invoke the
agent on the topic prompt; on a content reply apply the 50-character
quality gate; on an unexpected result shape return the format fallback;
on an exception, re-raise `MCPOverloadedError` for overload signals and
return a per-topic message otherwise.  The `mcp_limiter` slot only
paces the call. -/
def process_topic (O : RedditOracle) (topic : String) : Except MCPOverloadedError String :=
  match O.agentInvoke (redditPrompt topic) with
  | .ok (.content content) =>
    if content.length < 50 then .ok (limitedPlaceholder topic)
    else .ok content
  | .ok .unexpected => .ok (unexpectedFormatMsg topic)
  | .error e =>
    if overloadSignal e then .error ⟨"Service overloaded"⟩
    else if hasSubstr (pyLower e) "rate limit" then .ok (rateLimitMsg topic)
    else .ok (techIssueMsg topic)

/-- The meaningfulness check of `scrape_reddit_topics` (line 81):
`len(summary) < 50 or "unable" in summary.lower() or "error" in
summary.lower()`.  In the source it only selects a console warning; the
summary is stored either way. -/
def qualityWarningFlag (summary : String) : Bool :=
  decide (summary.length < 50) || hasSubstr (pyLower summary) "unable"
    || hasSubstr (pyLower summary) "error"

/-- The value returned by `scrape_reddit_topics`:
`{"reddit_analysis": ...}`. -/
structure RedditAnalysisResult where
  reddit_analysis : StrDict

/-- `scrape_reddit_topics` (`reddit_scrapper.py` lines 48–112).  The
outer `try` covers Session-Init and the topic loop: if Session-Init
raises, the `except` returns the uniform per-topic unavailability dict
at once.  Inside the loop, any exception from `process_topic`
(including `MCPOverloadedError`, a subclass of `Exception`) is caught by
the inner `except Exception` and replaced by the per-topic fallback
string.  Totality of this definition is the adapter's no-raise
contract. -/
def scrape_reddit_topics (O : RedditOracle) (topics : List String) : RedditAnalysisResult :=
  match O.sessionInit with
  | .ok _ =>
    ⟨topics.foldl (fun reddit_results topic =>
        dictInsert reddit_results topic
          (match process_topic O topic with
           | .ok summary => summary
           | .error _ => unableFetchMsg topic))
      emptyDict⟩
  | .error _ =>
    ⟨topics.foldl (fun d topic => dictInsert d topic (unavailableMsg topic)) emptyDict⟩

/-- The value the per-topic loop of `scrape_reddit_topics` stores for a
topic: the summary from `process_topic`, or — when it raised — the
inner `except Exception` fallback string. -/
def redditTopicResult (O : RedditOracle) (topic : String) : String :=
  match process_topic O topic with
  | .ok summary => summary
  | .error _ => unableFetchMsg topic

/-! ## Speech Synthesizer — `utils.py` lines 161–205 and
`backend.py` lines 80–92

`text_to_audio_elevenlabs_sdk` raises `ValueError` when no API key is
configured, `NotImplementedError` when the `elevenlabs` import fails,
and `HTTPException` on any other upstream failure.  The endpoint's
`except (NotImplementedError, ValueError)` clause — exactly the first
two, capability-class, exception types — switches to the gTTS
fallback. -/

/-- The exception classes `text_to_audio_elevenlabs_sdk` can raise. -/
inductive SynthError where
  | valueError (msg : String)
  | notImplementedError (msg : String)
  | httpException (msg : String)
deriving DecidableEq

/-- Membership in the `except (NotImplementedError, ValueError)` tuple of
`generate_news_audio`. -/
def SynthError.isCapability : SynthError → Bool
  | .valueError _ => true
  | .notImplementedError _ => true
  | .httpException _ => false

def SynthError.message : SynthError → String
  | .valueError m => m
  | .notImplementedError m => m
  | .httpException m => m

structure ElevenLabsEnv where
  /-- The `api_key` argument or `os.getenv("ELEVEN_API_KEY")`; `none`
  when both are missing. -/
  apiKey : Option String
  /-- Whether `from elevenlabs import ElevenLabs` succeeds. -/
  sdkInstalled : Bool
  /-- `client.text_to_speech.convert(...)` plus the chunked file write:
  the written filename, or the exception text. -/
  convert : String → Except String String

/-- `utils.text_to_audio_elevenlabs_sdk`. -/
def text_to_audio_elevenlabs_sdk (env : ElevenLabsEnv) (text : String) :
    Except SynthError String :=
  match env.apiKey with
  | none => .error (.valueError "ElevenLabs API key required")
  | some _ =>
    if env.sdkInstalled then
      match env.convert text with
      | .ok filename => .ok filename
      | .error e => .error (.httpException ("ElevenLabs error: " ++ e))
    else
      .error (.notImplementedError
        "ElevenLabs SDK is not installed. Install it with: pip install elevenlabs")

/-- `utils.tts_to_audio`: gTTS synthesis; any exception becomes
`HTTPException(500, "gTTS error: ...")`. -/
def tts_to_audio (gtts : String → Except String String) (text : String) :
    Except String String :=
  match gtts text with
  | .ok filename => .ok filename
  | .error e => .error ("gTTS error: " ++ e)

/-- Which synthesis services a run of the audio stage invoked, in
order. -/
inductive SynthCall where
  | elevenlabs
  | gtts
deriving DecidableEq, BEq

/-- The audio-generation stage of `generate_news_audio` (`backend.py`
lines 80–92), instrumented with the list of synthesis calls it makes:

```python
try:
    audio_path = text_to_audio_elevenlabs_sdk(...)
except (NotImplementedError, ValueError) as e:
    audio_path = tts_to_audio(text=news_summary, language="en")
```

A non-capability `HTTPException` is not caught here; it propagates (the
endpoint's outer handler re-raises it to the caller as a 500). -/
def audioStage (env : ElevenLabsEnv) (gtts : String → Except String String)
    (news_summary : String) : Except String String × List SynthCall :=
  match text_to_audio_elevenlabs_sdk env news_summary with
  | .ok audio_path => (.ok audio_path, [.elevenlabs])
  | .error e =>
    if e.isCapability then (tts_to_audio gtts news_summary, [.elevenlabs, .gtts])
    else (.error e.message, [.elevenlabs])

/-! ## Script Composer — `utils.generate_broadcast_news` -/

/-- Python `sep.join(parts)`. -/
def pyJoin (sep : String) : List String → String
  | [] => ""
  | [a] => a
  | a :: rest => a ++ sep ++ pyJoin sep rest

/-- The fixed system prompt of `generate_broadcast_news`. -/
def broadcastSystemPrompt : String :=
  "\nYou are a professional virtual news reporter generating a natural-sounding audio news broadcast.\n\nGuidelines:\n- Write in a conversational, engaging tone suitable for audio\n- Use short, clear sentences\n- Avoid jargon and complex terms\n- Include transitions between topics\n- No markdown, emojis, or special formatting\n- Write as if speaking directly to listeners\n- Keep it concise but informative\n- End with a friendly sign-off\n"

/-- One iteration of the `for topic in topics` loop of
`generate_broadcast_news`: the context block appended to
`topic_blocks`, or `none` when `context` stays empty.  Python string
truthiness makes a missing entry and an empty-string entry
indistinguishable here (`.get(topic, "")` then `if news_content:`). -/
def topicBlock (news_analysis reddit_analysis : StrDict) (topic : String) : Option String :=
  let news_content := (news_analysis topic).getD ""
  let reddit_content := (reddit_analysis topic).getD ""
  let context : List String :=
    (if news_content != "" then ["OFFICIAL NEWS CONTENT:\n" ++ news_content] else []) ++
    (if reddit_content != "" then ["REDDIT DISCUSSION CONTENT:\n" ++ reddit_content] else [])
  match context with
  | [] => none
  | _ => some ("TOPIC: " ++ topic ++ "\n\n" ++ pyJoin "\n\n" context)

/-- The separator of `"\n\n--- NEW TOPIC ---\n\n".join(topic_blocks)`. -/
def newTopicSep : String := "\n\n--- NEW TOPIC ---\n\n"

/-- The `user_prompt` built by `generate_broadcast_news`
(`utils.py` lines 124–137).  `news_data` / `reddit_data` are the outer
result dicts; `none` stands for `{}` (source not selected), and
`.getD emptyDict` is `news_data.get("news_analysis", {})`. -/
def broadcastUserPrompt (news_data reddit_data : Option StrDict) (topics : List String) :
    String :=
  let news_analysis := news_data.getD emptyDict
  let reddit_analysis := reddit_data.getD emptyDict
  pyJoin newTopicSep (topics.filterMap (topicBlock news_analysis reddit_analysis))

/-- `utils.generate_broadcast_news`: a single LLM request on the fixed
system prompt plus the user prompt, the reply stripped; any exception
becomes `HTTPException(500, str(e))`. -/
def generate_broadcast_news (llm : String → Except String String)
    (news_data reddit_data : Option StrDict) (topics : List String) :
    Except String String :=
  match llm (broadcastSystemPrompt ++ "\n\n" ++
      broadcastUserPrompt news_data reddit_data topics) with
  | .ok content => .ok (pyStrip content)
  | .error e => .error e

/-! ## Aggregator — source selection in `backend.generate_news_audio`
(`backend.py` lines 51–62) -/

/-- Which source adapters a request run invoked. -/
inductive AdapterCall where
  | news
  | reddit
deriving DecidableEq, BEq

structure PipelineOracle where
  newsOracle : NewsOracle
  redditOracle : RedditOracle

/-- The adapter-selection block of `generate_news_audio`:

```python
if request.source_type in ["news", "both"]:
    results["news"] = await news_scraper.scrape_news(request.topics)
if request.source_type in ["reddit", "both"]:
    results["reddit"] = await scrape_reddit_topics(request.topics)
news_data = results.get("news", {})
reddit_data = results.get("reddit", {})
```

`none` models an absent `results` key (so `results.get(..., {})` yields
`{}`); the trace records which adapters were invoked, in order. -/
def gatherSources (O : PipelineOracle) (source_type : String) (topics : List String) :
    Option NewsAnalysisResult × Option RedditAnalysisResult × List AdapterCall :=
  let newsStep : Option NewsAnalysisResult × List AdapterCall :=
    if source_type = "news" ∨ source_type = "both" then
      (some (scrape_news O.newsOracle topics), [AdapterCall.news])
    else (none, [])
  let redditStep : Option RedditAnalysisResult × List AdapterCall :=
    if source_type = "reddit" ∨ source_type = "both" then
      (some (scrape_reddit_topics O.redditOracle topics), [AdapterCall.reddit])
    else (none, [])
  (newsStep.1, redditStep.1, newsStep.2 ++ redditStep.2)

/-- The `reddit_data` dict a run passes to `generate_broadcast_news`,
as the inner per-topic mapping (`{}` when the source was not
selected). -/
def redditDataOf (r : Option NewsAnalysisResult × Option RedditAnalysisResult × List AdapterCall) :
    Option StrDict :=
  r.2.1.map RedditAnalysisResult.reddit_analysis

/-- The `news_data` dict a run passes to `generate_broadcast_news`. -/
def newsDataOf (r : Option NewsAnalysisResult × Option RedditAnalysisResult × List AdapterCall) :
    Option StrDict :=
  r.1.map NewsAnalysisResult.news_analysis

/-! ## Concrete collaborator instances

Closed oracles used to evaluate the pipeline on concrete inputs. -/

/-- A news oracle whose fetch service fails on every request. -/
def failNewsOracle : NewsOracle where
  quotePlus := id
  post := fun _ => .error "connection refused"
  cleanHtml := id
  llm := fun _ => .error "quota exceeded"

/-- A social oracle whose Session-Init raises. -/
def redditInitFailOracle : RedditOracle where
  sessionInit := .error "npx launch failed"
  agentInvoke := fun _ => .ok .unexpected

/-- A social oracle whose agent call fails with an upstream overload
message. -/
def overloadOracle : RedditOracle where
  sessionInit := .ok ()
  agentInvoke := fun _ => .error "Overloaded"

/-- An agent reply longer than 50 characters that the meaningfulness
check flags (it contains "unable"). -/
def flaggedLongContent : String :=
  "I was unable to locate any Reddit discussion threads about this topic."

/-- A social oracle whose agent returns `flaggedLongContent`. -/
def flaggedLongOracle : RedditOracle where
  sessionInit := .ok ()
  agentInvoke := fun _ => .ok (.content flaggedLongContent)

/-- A social oracle whose agent returns a 10-character reply. -/
def shortRespOracle : RedditOracle where
  sessionInit := .ok ()
  agentInvoke := fun _ => .ok (.content "tencharstr")

/-- A synthesis environment with no ElevenLabs API key configured. -/
def noKeyEnv : ElevenLabsEnv where
  apiKey := none
  sdkInstalled := true
  convert := fun _ => .ok "audio/tts_20250101_000000.mp3"

/-- A gTTS collaborator that always succeeds. -/
def gttsOk : String → Except String String :=
  fun _ => .ok "audio/tts_20250101_000001.mp3"

/-- A news mapping holding one topic. -/
def c8NewsDict : StrDict := dictInsert emptyDict "AI" "AI headline summary"

/-- A pipeline oracle joining the two failing adapters. -/
def failPipelineOracle : PipelineOracle where
  newsOracle := failNewsOracle
  redditOracle := redditInitFailOracle

/-! ## Lemmas -/

/-! ### The extractor loop keeps exactly the odd-positioned lines -/

theorem blockLoop_eq_oddPositions : ∀ ls : List String, blockLoop ls [] = oddPositions ls
  | [] => rfl
  | [_] => rfl
  | _ :: _ :: rest => by
    simp only [blockLoop, oddPositions, blockLoop_eq_oddPositions rest]

theorem oddPositions_length : ∀ ls : List String, (oddPositions ls).length = (ls.length + 1) / 2
  | [] => rfl
  | [a] => by simp [oddPositions]
  | _ :: _ :: rest => by
    simp only [oddPositions, List.length_cons, oddPositions_length rest]
    omega

theorem mem_oddPositions : ∀ (ls : List String) (x : String), x ∈ oddPositions ls → x ∈ ls
  | [], _, h => by simp only [oddPositions] at h; exact absurd h (List.not_mem_nil _)
  | [a], x, h => by simpa only [oddPositions] using h
  | a :: b :: rest, x, h => by
    simp only [oddPositions, List.mem_cons] at h ⊢
    rcases h with h | h
    · exact Or.inl h
    · exact Or.inr (Or.inr (mem_oddPositions rest x h))

/-! ### Round-tripping the output through the line scanner

A stripped non-empty line contains no newline and is fixed by a second
strip, so `pyLines` applied to `joinNl` of such lines recovers them. -/

theorem trimBack_cons (c : Char) (cs : List Char) :
    trimBack (c :: cs) =
      match trimBack cs with
      | [] => if c.isWhitespace then [] else [c]
      | r => c :: r := rfl

theorem dropWhile_idem (p : Char → Bool) : ∀ cs : List Char,
    (cs.dropWhile p).dropWhile p = cs.dropWhile p
  | [] => rfl
  | c :: cs => by
    by_cases h : p c = true
    · rw [List.dropWhile_cons, if_pos h]
      exact dropWhile_idem p cs
    · rw [List.dropWhile_cons, if_neg h, List.dropWhile_cons, if_neg h]

theorem dropWhile_head_not (p : Char → Bool) : ∀ (cs : List Char) (c : Char) (cs' : List Char),
    cs.dropWhile p = c :: cs' → p c = false
  | [], c, cs', h => by simp at h
  | d :: ds, c, cs', h => by
    by_cases hd : p d = true
    · rw [List.dropWhile_cons, if_pos hd] at h
      exact dropWhile_head_not p ds c cs' h
    · rw [List.dropWhile_cons, if_neg hd] at h
      cases h
      simpa using hd

theorem trimBack_idem : ∀ cs : List Char, trimBack (trimBack cs) = trimBack cs
  | [] => rfl
  | c :: cs => by
    cases h : trimBack cs with
    | nil =>
      by_cases hw : c.isWhitespace = true
      · rw [trimBack_cons, h]
        simp [hw, trimBack]
      · rw [trimBack_cons, h]
        simp only [if_neg hw]
        rw [trimBack_cons]
        simp [hw, trimBack]
    | cons x xs =>
      have ih : trimBack (x :: xs) = x :: xs := by
        have := trimBack_idem cs
        rwa [h] at this
      rw [trimBack_cons c cs, h]
      show trimBack (c :: x :: xs) = c :: x :: xs
      rw [trimBack_cons c (x :: xs), ih]

theorem trimBack_shape (c : Char) (cs : List Char) :
    trimBack (c :: cs) = [] ∨ ∃ r, trimBack (c :: cs) = c :: r := by
  cases h : trimBack cs with
  | nil =>
    by_cases hw : c.isWhitespace = true
    · left; rw [trimBack_cons, h]; simp [hw]
    · right; exact ⟨[], by rw [trimBack_cons, h]; simp [hw]⟩
  | cons x xs => right; exact ⟨x :: xs, by rw [trimBack_cons, h]⟩

theorem mem_trimBack : ∀ (cs : List Char) (x : Char), x ∈ trimBack cs → x ∈ cs
  | [], x, h => by simp [trimBack] at h
  | c :: cs, x, h => by
    rw [trimBack_cons] at h
    cases hcs : trimBack cs with
    | nil =>
      rw [hcs] at h
      by_cases hw : c.isWhitespace = true
      · simp [hw] at h
      · simp only [if_neg hw, List.mem_singleton] at h
        simp [h]
    | cons y ys =>
      rw [hcs] at h
      rcases List.mem_cons.mp h with h | h
      · simp [h]
      · exact List.mem_cons_of_mem _ (mem_trimBack cs x (hcs ▸ h))

theorem stripChars_idem (cs : List Char) : stripChars (stripChars cs) = stripChars cs := by
  unfold stripChars
  cases hA : cs.dropWhile Char.isWhitespace with
  | nil => rfl
  | cons c cs' =>
    have hc : c.isWhitespace = false := dropWhile_head_not _ cs c cs' hA
    rcases trimBack_shape c cs' with h | ⟨r, h⟩
    · rw [h]; rfl
    · rw [h, List.dropWhile_cons, if_neg (by simp [hc]), ← h, trimBack_idem]

theorem mem_stripChars (cs : List Char) (x : Char) (h : x ∈ stripChars cs) : x ∈ cs :=
  (List.dropWhile_sublist _).mem (mem_trimBack _ x h)

theorem splitNl_noNl : ∀ cs : List Char, '\n' ∉ cs → splitNl cs = [cs]
  | [], _ => rfl
  | c :: cs, h => by
    have hc : ¬(c = '\n') := fun hc => h (hc ▸ List.mem_cons_self c cs)
    have ih : splitNl cs = [cs] := splitNl_noNl cs (fun hm => h (List.mem_cons_of_mem c hm))
    simp [splitNl, ih, hc]

theorem splitNl_append_nl : ∀ (cs ds : List Char), '\n' ∉ cs →
    splitNl (cs ++ '\n' :: ds) = cs :: splitNl ds
  | [], ds, _ => by simp [splitNl]
  | c :: cs, ds, h => by
    have hc : ¬(c = '\n') := fun hc => h (hc ▸ List.mem_cons_self c cs)
    have ih : splitNl (cs ++ '\n' :: ds) = cs :: splitNl ds :=
      splitNl_append_nl cs ds (fun hm => h (List.mem_cons_of_mem c hm))
    simp [splitNl, ih, hc]

theorem noNl_of_mem_splitNl : ∀ (cs : List Char) (piece : List Char),
    piece ∈ splitNl cs → '\n' ∉ piece
  | [], piece, h => by
    simp only [splitNl, List.mem_singleton] at h
    simp [h]
  | c :: cs, piece, h => by
    by_cases hc : c = '\n'
    · simp only [splitNl, hc, if_true] at h
      rcases List.mem_cons.mp h with h | h
      · simp [h]
      · exact noNl_of_mem_splitNl cs piece h
    · simp only [splitNl, hc, if_false] at h
      cases hr : splitNl cs with
      | nil => rw [hr] at h; simp only [List.mem_singleton] at h
               subst h; simpa using fun hx => hc hx.symm
      | cons p ps =>
        rw [hr] at h
        rcases List.mem_cons.mp h with h | h
        · subst h
          intro hm
          rcases List.mem_cons.mp hm with hm | hm
          · exact hc hm.symm
          · exact noNl_of_mem_splitNl cs p (hr ▸ List.mem_cons_self p ps) hm
        · exact noNl_of_mem_splitNl cs piece (hr ▸ List.mem_cons_of_mem p h)

theorem pyLines_clean (s : String) (x : String) (hx : x ∈ pyLines s) : CleanLine x := by
  unfold pyLines at hx
  rcases List.mem_filter.mp hx with ⟨hmem, hne⟩
  rcases List.mem_map.mp hmem with ⟨y, hy, rfl⟩
  rcases List.mem_map.mp hy with ⟨piece, hpiece, rfl⟩
  refine ⟨by simpa using hne, ?_, ?_⟩
  · intro hmem'
    have hdata : (pyStrip (String.mk piece)).data = stripChars piece := rfl
    rw [hdata] at hmem'
    exact noNl_of_mem_splitNl _ piece hpiece (mem_stripChars piece '\n' hmem')
  · show stripChars (stripChars piece) = stripChars piece
    exact stripChars_idem piece

theorem pyLines_joinNl : ∀ l : List String, (∀ x ∈ l, CleanLine x) → pyLines (joinNl l) = l
  | [], _ => rfl
  | [a], h => by
    obtain ⟨hne, hnl, hstrip⟩ := h a (List.mem_singleton.mpr rfl)
    have hsplit : splitNl a.data = [a.data] := splitNl_noNl a.data hnl
    have hstripa : pyStrip a = a := by
      show String.mk (stripChars a.data) = a
      rw [hstrip]
    simp [joinNl, pyLines, pySplitLines, hsplit, hstripa, hne]
  | a :: b :: rest, h => by
    obtain ⟨hne, hnl, hstrip⟩ := h a (List.mem_cons_self _ _)
    have ih : pyLines (joinNl (b :: rest)) = b :: rest :=
      pyLines_joinNl (b :: rest) (fun x hx => h x (List.mem_cons_of_mem a hx))
    have hdata : (joinNl (a :: b :: rest)).data = a.data ++ '\n' :: (joinNl (b :: rest)).data := by
      show ((a ++ "\n") ++ joinNl (b :: rest)).data = _
      rw [String.data_append, String.data_append]
      simp
    have hstripa : pyStrip a = a := by
      show String.mk (stripChars a.data) = a
      rw [hstrip]
    have hsplit : splitNl (joinNl (a :: b :: rest)).data
        = a.data :: splitNl (joinNl (b :: rest)).data := by
      rw [hdata]; exact splitNl_append_nl _ _ hnl
    have hPS : pySplitLines (joinNl (a :: b :: rest)) = a :: pySplitLines (joinNl (b :: rest)) := by
      unfold pySplitLines
      rw [hsplit]
      rfl
    have hbne : (a != "") = true := by simp [hne]
    calc pyLines (joinNl (a :: b :: rest))
        = ((a :: pySplitLines (joinNl (b :: rest))).map pyStrip).filter (fun l => l != "") := by
          unfold pyLines; rw [hPS]
      _ = a :: pyLines (joinNl (b :: rest)) := by
          rw [List.map_cons, hstripa, List.filter_cons, if_pos hbne]
          rfl
      _ = a :: b :: rest := by rw [ih]

/-- Re-scanning the extractor's own output recovers exactly the
headline list it joined. -/
theorem pyLines_extract_headlines (t : String) :
    pyLines (extract_headlines t) = extractCore t := by
  unfold extract_headlines
  have : blockLoop (pyLines t) [] = extractCore t := rfl
  rw [this]
  refine pyLines_joinNl _ (fun x hx => ?_)
  have : x ∈ pyLines t := by
    have hodd : extractCore t = oddPositions (pyLines t) := blockLoop_eq_oddPositions _
    exact mem_oddPositions _ x (hodd ▸ hx)
  exact pyLines_clean t x this

/-- A `for topic in topics: results[topic] = f(topic)` loop: afterwards
every requested topic is bound to `f topic` and nothing else changed. -/
theorem foldlInsert_lookup (f : String → String) :
    ∀ (topics : List String) (d : StrDict) (t : String),
      (topics.foldl (fun d tp => dictInsert d tp (f tp)) d) t
        = if t ∈ topics then some (f t) else d t
  | [], d, t => by simp
  | a :: rest, d, t => by
    rw [List.foldl_cons, foldlInsert_lookup f rest (dictInsert d a (f a)) t]
    by_cases hr : t ∈ rest
    · simp [hr]
    · by_cases ha : t = a
      · simp [hr, ha, dictInsert]
      · simp [hr, ha, dictInsert, List.mem_cons]

/-! ## Claims -/

/-- C10: for every input text whose stripped non-empty lines are
`L1, ..., Ln`, `extract_headlines` returns exactly the odd-positioned
lines `L1, L3, L5, ...` joined by newlines (the even-positioned lines
trigger the buffer flush and are discarded without being buffered), so
re-scanning the output yields exactly those lines — `(n + 1) / 2`,
i.e. `⌈n/2⌉`, of them. -/
theorem extract_headlines_odd_lines (t : String) :
    extract_headlines t = joinNl (oddPositions (pyLines t)) ∧
    pyLines (extract_headlines t) = oddPositions (pyLines t) ∧
    (pyLines (extract_headlines t)).length = ((pyLines t).length + 1) / 2 := by
  have hcore : extractCore t = oddPositions (pyLines t) := blockLoop_eq_oddPositions _
  have hscan : pyLines (extract_headlines t) = oddPositions (pyLines t) :=
    (pyLines_extract_headlines t).trans hcore
  refine ⟨?_, hscan, ?_⟩
  · unfold extract_headlines
    rw [show blockLoop (pyLines t) [] = extractCore t from rfl, hcore]
  · rw [hscan, oddPositions_length]

/-- C6 counterexample: the block-detection heuristic is not a
near-identity transform.  On six non-empty input lines the output keeps
only three — every second line is dropped, so the output is not
"(almost) every non-empty input line". -/
theorem extractor_not_near_identity :
    pyLines "a\nb\nc\nd\ne\nf" = ["a", "b", "c", "d", "e", "f"] ∧
    extractCore "a\nb\nc\nd\ne\nf" = ["a", "c", "e"] ∧
    2 * (extractCore "a\nb\nc\nd\ne\nf").length = (pyLines "a\nb\nc\nd\ne\nf").length ∧
    extract_headlines "a\nb\nc\nd\ne\nf" ≠ joinNl (pyLines "a\nb\nc\nd\ne\nf") := by
  decide

/-- C6 amended: the heuristic's buffer resets after exactly one line,
but the resetting flush consumes (and discards) the line that triggered
it, so the output is the odd-positioned non-empty lines — on any input
with at least two non-empty lines the output is strictly shorter than
the input, never a near-identity. -/
theorem extractor_keeps_odd_half (t : String) :
    extractCore t = oddPositions (pyLines t) ∧
    (2 ≤ (pyLines t).length → (extractCore t).length < (pyLines t).length) := by
  have hcore : extractCore t = oddPositions (pyLines t) := blockLoop_eq_oddPositions _
  refine ⟨hcore, fun h2 => ?_⟩
  rw [hcore, oddPositions_length]
  omega

/-- C6 amended, witnessed at a concrete input with two non-empty
lines. -/
theorem extractor_keeps_odd_half_witness :
    2 ≤ (pyLines "a\nb").length ∧ (extractCore "a\nb").length < (pyLines "a\nb").length :=
  ⟨by decide, (extractor_keeps_odd_half "a\nb").2 (by decide)⟩

/-- C7 counterexample: `extract_headlines` is not idempotent under
self-application.  On three non-empty lines the first pass keeps two
lines and the second pass keeps one, so applying the extractor to its
own output does not yield the same output. -/
theorem extractor_not_idempotent :
    extract_headlines "a\nb\nc" = "a\nc" ∧
    extract_headlines (extract_headlines "a\nb\nc") = "a" ∧
    extract_headlines (extract_headlines "a\nb\nc") ≠ extract_headlines "a\nb\nc" := by
  decide

/-- C7 amended: the extractor's output line count never exceeds the
count of non-empty input lines (it is `⌈n/2⌉ ≤ n`), and the extractor
is a pure function — two runs on identical input are the same Lean
term, so determinism holds by reflexivity; what fails is idempotence
under self-application (see the counterexample). -/
theorem extractor_line_count_le (t : String) :
    (pyLines (extract_headlines t)).length ≤ (pyLines t).length := by
  rw [(pyLines_extract_headlines t).trans (blockLoop_eq_oddPositions _), oddPositions_length]
  omega

/-- C1: for every list of requested topics and every collaborator
behaviour, `scrape_news` binds each requested topic in its
`news_analysis` mapping — to the per-topic pipeline's summary, which,
when the fetch or the summarization step raised, is the error string
embedding the topic's name.  All fallible steps are modelled in
`Except` and the result type carries no error case, so no exception
reaches the caller even when the fetch service fails for every
topic. -/
theorem scrape_news_covers_every_topic (O : NewsOracle) (topics : List String)
    (t : String) (h : t ∈ topics) :
    (scrape_news O topics).news_analysis t = some (scrape_news_topic O t) ∧
    (newsStepFailed O t = true →
      ∃ e, scrape_news_topic O t = newsTopicErrorMsg t e ∧
        ∃ pre post, scrape_news_topic O t = pre ++ (t ++ post)) := by
  constructor
  · show (topics.foldl (fun results topic =>
        dictInsert results topic (scrape_news_topic O topic)) emptyDict) t = _
    rw [foldlInsert_lookup (scrape_news_topic O) topics emptyDict t, if_pos h]
  · intro hfail
    unfold newsStepFailed at hfail
    unfold scrape_news_topic
    cases hres : newsPipeline O t with
    | error e =>
      refine ⟨e, rfl, "Error fetching news for \x27", "\x27: " ++ e, ?_⟩
      show ("Error fetching news for \x27" ++ t ++ "\x27: ") ++ e
          = "Error fetching news for \x27" ++ (t ++ ("\x27: " ++ e))
      simp [String.append_assoc]
    | ok summary =>
      rw [hres] at hfail
      exact Bool.noConfusion (show false = true from hfail)

/-- C1 witnessed with a fetch service that fails on every request. -/
theorem scrape_news_covers_every_topic_witness :
    (("AI" : String) ∈ ["AI", "Climate"]) ∧
    ((scrape_news failNewsOracle ["AI", "Climate"]).news_analysis "AI"
        = some (scrape_news_topic failNewsOracle "AI") ∧
      (newsStepFailed failNewsOracle "AI" = true →
        ∃ e, scrape_news_topic failNewsOracle "AI" = newsTopicErrorMsg "AI" e ∧
          ∃ pre post, scrape_news_topic failNewsOracle "AI" = pre ++ ("AI" ++ post))) :=
  ⟨by decide, scrape_news_covers_every_topic failNewsOracle ["AI", "Climate"] "AI" (by decide)⟩

/-- C2: if Session-Init raises, `scrape_reddit_topics` returns the
`reddit_analysis` mapping binding every requested topic (and only the
requested topics) to the "temporarily unavailable" placeholder built
from the topic name, and the result does not depend on the agent
collaborator at all — the per-topic loop is never entered, so there are
no partial results; the definition's totality is the no-raise
contract. -/
theorem scrape_reddit_session_init_failure (O : RedditOracle) (topics : List String)
    (e : String) (h : O.sessionInit = .error e) :
    (∀ t, (scrape_reddit_topics O topics).reddit_analysis t
        = if t ∈ topics then some (unavailableMsg t) else none) ∧
    (∀ O' : RedditOracle, O'.sessionInit = O.sessionInit →
        scrape_reddit_topics O' topics = scrape_reddit_topics O topics) := by
  constructor
  · intro t
    unfold scrape_reddit_topics
    rw [h]
    exact foldlInsert_lookup unavailableMsg topics emptyDict t
  · intro O' h'
    unfold scrape_reddit_topics
    rw [h, h'.trans h]

/-- C2 witnessed with a failing Session-Init on a one-topic batch. -/
theorem scrape_reddit_session_init_failure_witness :
    (scrape_reddit_topics redditInitFailOracle ["AI"]).reddit_analysis "AI"
      = some "Reddit data temporarily unavailable for AI" := by
  rw [(scrape_reddit_session_init_failure redditInitFailOracle ["AI"]
    "npx launch failed" rfl).1 "AI"]
  decide

/-- C5: when the agent call for a topic raises with an overload signal
("Overloaded" or "429" in the message), `process_topic` re-raises the
distinct `MCPOverloadedError` — visible as such to its caller — while
any other agent failure yields a per-topic string result; and with a
working Session-Init, `scrape_reddit_topics` still binds every
requested topic (the inner `except Exception` converts even the
re-raised overload error into the per-topic fallback, so the batch is
never aborted). -/
theorem process_topic_overload_distinction (O : RedditOracle) (topic e : String)
    (h : O.agentInvoke (redditPrompt topic) = .error e) :
    (overloadSignal e = true →
        process_topic O topic = .error ⟨"Service overloaded"⟩) ∧
    (overloadSignal e = false → ∃ s, process_topic O topic = .ok s) ∧
    (∀ (topics : List String) (t : String), O.sessionInit = .ok () → t ∈ topics →
        ∃ s, (scrape_reddit_topics O topics).reddit_analysis t = some s) := by
  refine ⟨?_, ?_, ?_⟩
  · intro hov
    unfold process_topic
    rw [h]
    show (if overloadSignal e = true then
            (Except.error ⟨"Service overloaded"⟩ : Except MCPOverloadedError String)
          else if hasSubstr (pyLower e) "rate limit" = true then .ok (rateLimitMsg topic)
          else .ok (techIssueMsg topic))
        = .error ⟨"Service overloaded"⟩
    rw [if_pos hov]
  · intro hov
    unfold process_topic
    rw [h]
    show ∃ s, (if overloadSignal e = true then
            (Except.error ⟨"Service overloaded"⟩ : Except MCPOverloadedError String)
          else if hasSubstr (pyLower e) "rate limit" = true then .ok (rateLimitMsg topic)
          else .ok (techIssueMsg topic))
        = .ok s
    rw [if_neg (by simp [hov])]
    by_cases hrl : hasSubstr (pyLower e) "rate limit" = true
    · exact ⟨rateLimitMsg topic, by rw [if_pos hrl]⟩
    · exact ⟨techIssueMsg topic, by rw [if_neg hrl]⟩
  · intro topics t hsession ht
    unfold scrape_reddit_topics
    rw [hsession]
    refine ⟨redditTopicResult O t, ?_⟩
    show (topics.foldl (fun d tp => dictInsert d tp (redditTopicResult O tp)) emptyDict) t
        = some (redditTopicResult O t)
    rw [foldlInsert_lookup (redditTopicResult O) topics emptyDict t, if_pos ht]

/-- C5 witnessed: a concrete "Overloaded" agent failure surfaces from
`process_topic` as `MCPOverloadedError`, while the batch for that topic
still completes with an entry. -/
theorem process_topic_overload_distinction_witness :
    overloadSignal "Overloaded" = true ∧
    process_topic overloadOracle "X" = .error ⟨"Service overloaded"⟩ ∧
    (∃ s, (scrape_reddit_topics overloadOracle ["X"]).reddit_analysis "X" = some s) :=
  ⟨by decide,
   (process_topic_overload_distinction overloadOracle "X" "Overloaded" rfl).1 (by decide),
   (process_topic_overload_distinction overloadOracle "X" "Overloaded" rfl).2.2
     ["X"] "X" rfl (by decide)⟩

/-- C4 counterexample: the claim's disjunctive gate does not hold.  A
71-character agent reply containing "unable" is heuristically flagged
by the meaningfulness check of `scrape_reddit_topics`, yet — being at
least 50 characters long — `process_topic` returns the raw content, and
the batch stores that raw content, not the "Limited Reddit discussion
found" placeholder. -/
theorem quality_gate_flagged_content_kept_raw :
    qualityWarningFlag flaggedLongContent = true ∧
    hasSubstr (pyLower flaggedLongContent) "unable" = true ∧
    ¬ flaggedLongContent.length < 50 ∧
    process_topic flaggedLongOracle "X" = .ok flaggedLongContent ∧
    flaggedLongContent ≠ limitedPlaceholder "X" ∧
    (scrape_reddit_topics flaggedLongOracle ["X"]).reddit_analysis "X"
      = some flaggedLongContent := by
  decide

/-- C4 amended: the quality gate of `process_topic` substitutes the
"Limited Reddit discussion found" placeholder exactly when the agent's
final message content is shorter than 50 characters; the
"heuristically flagged empty" check (`"unable"`/`"error"` in the
lower-cased summary) lives in `scrape_reddit_topics` and only selects a
console warning — flagged content of length ≥ 50 is stored raw.  In
particular a 10-character response yields the placeholder. -/
theorem process_topic_quality_gate (O : RedditOracle) (topic c : String)
    (h : O.agentInvoke (redditPrompt topic) = .ok (.content c)) :
    process_topic O topic = .ok (if c.length < 50 then limitedPlaceholder topic else c) := by
  unfold process_topic
  rw [h]
  show (if c.length < 50 then
          (Except.ok (limitedPlaceholder topic) : Except MCPOverloadedError String)
        else .ok c)
      = .ok (if c.length < 50 then limitedPlaceholder topic else c)
  by_cases hlen : c.length < 50
  · rw [if_pos hlen, if_pos hlen]
  · rw [if_neg hlen, if_neg hlen]

/-- C4 amended, witnessed on the spec's concrete scenario: a
10-character agent response for topic "X" yields the fixed
placeholder. -/
theorem process_topic_quality_gate_witness :
    process_topic shortRespOracle "X" = .ok (limitedPlaceholder "X") := by
  rw [process_topic_quality_gate shortRespOracle "X" "tencharstr" rfl]
  decide

/-- C3: when the primary ElevenLabs path fails with a capability-class
error — which happens exactly when the API key or the SDK is missing —
the audio stage invokes the gTTS fallback exactly once and returns its
output; when the primary path fails with a non-capability service
error, the fallback is never invoked and that error surfaces to the
caller. -/
theorem audio_fallback_policy (env : ElevenLabsEnv) (gtts : String → Except String String)
    (text : String) (e : SynthError)
    (h : text_to_audio_elevenlabs_sdk env text = .error e) :
    (e.isCapability = true →
        audioStage env gtts text = (tts_to_audio gtts text, [.elevenlabs, .gtts]) ∧
        (audioStage env gtts text).2.count SynthCall.gtts = 1) ∧
    (e.isCapability = false →
        audioStage env gtts text = (.error e.message, [.elevenlabs]) ∧
        SynthCall.gtts ∉ (audioStage env gtts text).2) ∧
    (e.isCapability = true ↔ env.apiKey = none ∨ env.sdkInstalled = false) := by
  have hstage : audioStage env gtts text
      = (if e.isCapability then (tts_to_audio gtts text, [.elevenlabs, .gtts])
         else (.error e.message, [.elevenlabs])) := by
    unfold audioStage
    rw [h]
  refine ⟨?_, ?_, ?_⟩
  · intro hcap
    rw [hstage, if_pos hcap]
    exact ⟨rfl, rfl⟩
  · intro hcap
    rw [hstage, if_neg (by simp [hcap])]
    exact ⟨rfl, by simp⟩
  · unfold text_to_audio_elevenlabs_sdk at h
    cases hkey : env.apiKey with
    | none =>
      rw [hkey] at h
      cases h
      simp [SynthError.isCapability]
    | some k =>
      rw [hkey] at h
      cases hsdk : env.sdkInstalled with
      | false =>
        rw [hsdk, if_neg (by simp)] at h
        cases h
        simp [SynthError.isCapability]
      | true =>
        rw [hsdk, if_pos rfl] at h
        cases hconv : env.convert text with
        | ok filename => rw [hconv] at h; cases h
        | error msg =>
          rw [hconv] at h
          cases h
          simp [SynthError.isCapability]

/-- C3 witnessed: with no API key configured the primary path raises
`ValueError`, the gTTS fallback runs exactly once, and its audio path
is what the stage returns. -/
theorem audio_fallback_policy_witness :
    SynthError.isCapability (.valueError "ElevenLabs API key required") = true ∧
    audioStage noKeyEnv gttsOk "script text"
      = (tts_to_audio gttsOk "script text", [.elevenlabs, .gtts]) ∧
    (audioStage noKeyEnv gttsOk "script text").2.count SynthCall.gtts = 1 ∧
    audioStage noKeyEnv gttsOk "script text"
      = (.ok "audio/tts_20250101_000001.mp3", [.elevenlabs, .gtts]) :=
  ⟨by decide,
   ((audio_fallback_policy noKeyEnv gttsOk "script text"
      (.valueError "ElevenLabs API key required") rfl).1 (by decide)).1,
   ((audio_fallback_policy noKeyEnv gttsOk "script text"
      (.valueError "ElevenLabs API key required") rfl).1 (by decide)).2,
   by decide⟩

/-- C8: the Script Composer's user prompt joins, with the explicit
`--- NEW TOPIC ---` separator, the per-topic context blocks taken in the
original request order; a topic's block carries the news summary and/or
the social summary exactly when non-empty, each under its own label
(news first), and a topic with neither entry contributes no block at
all. -/
theorem broadcast_prompt_structure (news_data reddit_data : Option StrDict)
    (topics : List String) (t n r : String)
    (hn : ((news_data.getD emptyDict) t).getD "" = n)
    (hr : ((reddit_data.getD emptyDict) t).getD "" = r) :
    broadcastUserPrompt news_data reddit_data topics
      = pyJoin newTopicSep (topics.filterMap
          (topicBlock (news_data.getD emptyDict) (reddit_data.getD emptyDict))) ∧
    (n = "" → r = "" →
      topicBlock (news_data.getD emptyDict) (reddit_data.getD emptyDict) t = none) ∧
    (n ≠ "" → r = "" →
      topicBlock (news_data.getD emptyDict) (reddit_data.getD emptyDict) t
        = some ("TOPIC: " ++ t ++ "\n\n" ++ ("OFFICIAL NEWS CONTENT:\n" ++ n))) ∧
    (n = "" → r ≠ "" →
      topicBlock (news_data.getD emptyDict) (reddit_data.getD emptyDict) t
        = some ("TOPIC: " ++ t ++ "\n\n" ++ ("REDDIT DISCUSSION CONTENT:\n" ++ r))) ∧
    (n ≠ "" → r ≠ "" →
      topicBlock (news_data.getD emptyDict) (reddit_data.getD emptyDict) t
        = some ("TOPIC: " ++ t ++ "\n\n" ++
            ("OFFICIAL NEWS CONTENT:\n" ++ n ++ "\n\n" ++
              ("REDDIT DISCUSSION CONTENT:\n" ++ r)))) := by
  refine ⟨rfl, ?_, ?_, ?_, ?_⟩
  · intro hn0 hr0
    simp only [topicBlock, hn, hr, hn0, hr0]
    rfl
  · intro hn0 hr0
    simp only [topicBlock, hn, hr, hr0]
    rw [if_pos (by simpa using hn0), if_neg (by simp)]
    rfl
  · intro hn0 hr0
    simp only [topicBlock, hn, hr, hn0]
    rw [if_neg (by simp), if_pos (by simpa using hr0)]
    rfl
  · intro hn0 hr0
    simp only [topicBlock, hn, hr]
    rw [if_pos (by simpa using hn0), if_pos (by simpa using hr0)]
    rfl

/-- C8 witnessed: with a news entry for "AI" and no social data, the
"AI" block carries only the news label and content, and a topic with
neither entry ("Climate") contributes no block. -/
theorem broadcast_prompt_structure_witness :
    topicBlock ((some c8NewsDict).getD emptyDict) ((none : Option StrDict).getD emptyDict) "AI"
      = some ("TOPIC: " ++ "AI" ++ "\n\n" ++
          ("OFFICIAL NEWS CONTENT:\n" ++ "AI headline summary")) ∧
    topicBlock ((some c8NewsDict).getD emptyDict) ((none : Option StrDict).getD emptyDict)
      "Climate" = none :=
  ⟨(broadcast_prompt_structure (some c8NewsDict) none ["AI", "Climate"] "AI"
      "AI headline summary" "" (by decide) rfl).2.2.1 (by decide) rfl,
   (broadcast_prompt_structure (some c8NewsDict) none ["AI", "Climate"] "Climate"
      "" "" (by decide) rfl).2.1 rfl rfl⟩

/-- C9: when the requested source selection is "news", the social half
of the aggregation is absent — the Social Source Adapter is not
invoked (no `reddit` entry in the call trace) and the social mapping
passed downstream is the empty dict, binding no topic; symmetrically,
the News Source Adapter is invoked exactly when the selection is "news"
or "both". -/
theorem source_selection_news_only (O : PipelineOracle) (topics : List String)
    (source_type : String) :
    (source_type = "news" →
        (gatherSources O source_type topics).2.1 = none ∧
        AdapterCall.reddit ∉ (gatherSources O source_type topics).2.2 ∧
        (∀ t, (redditDataOf (gatherSources O source_type topics)).getD emptyDict t = none)) ∧
    (AdapterCall.news ∈ (gatherSources O source_type topics).2.2 ↔
        source_type = "news" ∨ source_type = "both") := by
  constructor
  · rintro rfl
    have hg : gatherSources O "news" topics
        = (some (scrape_news O.newsOracle topics), none, [AdapterCall.news]) := by
      unfold gatherSources
      rw [if_pos (Or.inl rfl : ("news" : String) = "news" ∨ ("news" : String) = "both"),
        if_neg (by decide : ¬ (("news" : String) = "reddit" ∨ ("news" : String) = "both"))]
      rfl
    refine ⟨by rw [hg], by rw [hg]; simp, fun t => by rw [hg]; rfl⟩
  · by_cases h1 : source_type = "news" ∨ source_type = "both" <;>
      by_cases h2 : source_type = "reddit" ∨ source_type = "both"
    · have hg : gatherSources O source_type topics
          = (some (scrape_news O.newsOracle topics),
             some (scrape_reddit_topics O.redditOracle topics),
             [AdapterCall.news, AdapterCall.reddit]) := by
        unfold gatherSources
        rw [if_pos h1, if_pos h2]
        rfl
      rw [hg]
      simp [h1]
    · have hg : gatherSources O source_type topics
          = (some (scrape_news O.newsOracle topics), none, [AdapterCall.news]) := by
        unfold gatherSources
        rw [if_pos h1, if_neg h2]
        rfl
      rw [hg]
      simp [h1]
    · have hg : gatherSources O source_type topics
          = (none, some (scrape_reddit_topics O.redditOracle topics),
             [AdapterCall.reddit]) := by
        unfold gatherSources
        rw [if_neg h1, if_pos h2]
        rfl
      rw [hg]
      simp [h1]
    · have hg : gatherSources O source_type topics = (none, none, []) := by
        unfold gatherSources
        rw [if_neg h1, if_neg h2]
        rfl
      rw [hg]
      simp [h1]

/-- C9 witnessed at the selection "news" on a one-topic request. -/
theorem source_selection_news_only_witness :
    (gatherSources failPipelineOracle "news" ["AI"]).2.1 = none ∧
    AdapterCall.reddit ∉ (gatherSources failPipelineOracle "news" ["AI"]).2.2 ∧
    AdapterCall.news ∈ (gatherSources failPipelineOracle "news" ["AI"]).2.2 :=
  ⟨((source_selection_news_only failPipelineOracle ["AI"] "news").1 rfl).1,
   ((source_selection_news_only failPipelineOracle ["AI"] "news").1 rfl).2.1,
   (source_selection_news_only failPipelineOracle ["AI"] "news").2.mpr (Or.inl rfl)⟩

end TrueScan
